import Mathlib

/-!
Shallow embedding of the Auto-Match admin-console core (recommended-listings
curation, moderation view aggregates, statistics derivations, limits settings)
for verification of the specification's claims.

Sources embedded:
- `RecommendedTab` (random-mode derivation and toggle handler)
- `StatisticsTab` (combined totals, active-user percentage)
- `ModerationTab` (status badge, pending/total aggregates, status-change menus)
- `LimitsTab` (settings load/save, 0-as-unlimited sentinel)
- `UsersTab` (per-user limits save, block-user confirmation)

Machine numbers from the TypeScript side are modelled as `JSNum` (an integer
or NaN) where `parseInt` can fail, and as `Nat`/`Int` where the source only
ever holds counts.
-/

namespace AutoMatch

/-- A JavaScript number as produced by `parseInt`: either an integer or NaN.
Fractional values never arise in the embedded code paths. -/
inductive JSNum where
  | num (n : Int)
  | nan
deriving DecidableEq, Repr

/-- Value of a list of decimal digit characters, most significant first. -/
def digitsVal (ds : List Char) : Nat :=
  ds.foldl (fun acc c => 10 * acc + (c.toNat - ('0').toNat)) 0

/-- JavaScript `parseInt(s)` in radix 10: skip leading spaces, read an
optional sign, then the longest run of leading decimal digits; NaN when no
digit follows. (Hex prefixes and exotic whitespace do not arise for the
embedded inputs, which come from number inputs and fixed select values.) -/
def parseIntJS (s : String) : JSNum :=
  let cs := s.data.dropWhile (fun c => c = ' ')
  match cs with
  | '-' :: rest =>
      let ds := rest.takeWhile Char.isDigit
      if ds.isEmpty then JSNum.nan else JSNum.num (-(digitsVal ds : Int))
  | '+' :: rest =>
      let ds := rest.takeWhile Char.isDigit
      if ds.isEmpty then JSNum.nan else JSNum.num (digitsVal ds : Int)
  | _ =>
      let ds := cs.takeWhile Char.isDigit
      if ds.isEmpty then JSNum.nan else JSNum.num (digitsVal ds : Int)

/-- JavaScript `x || d` on a `parseInt` result with an integer default:
NaN and 0 are falsy and yield the default. -/
def jsOr (x : JSNum) (d : Int) : JSNum :=
  match x with
  | JSNum.num n => if n = 0 then JSNum.num d else JSNum.num n
  | JSNum.nan => JSNum.num d

/-- JavaScript `x || null` on a `parseInt` result: NaN and 0 are falsy and
yield null (`none`). -/
def jsOrNull (x : JSNum) : Option JSNum :=
  match x with
  | JSNum.num n => if n = 0 then none else some (JSNum.num n)
  | JSNum.nan => none

/-! ## ModerationTab: status badge (`getStatusBadge`) -/

/-- Badge variants used by `getStatusBadge` in `ModerationTab.tsx`. -/
inductive BadgeVariant where
  | active
  | secondary
  | destructive
  | warning
deriving DecidableEq, Repr

/-- The configuration `getStatusBadge` selects: a variant and the i18n label
key (for an unknown status the raw status string itself is used as the key,
which the excluded i18n collaborator renders verbatim). -/
structure BadgeConfig where
  variant : BadgeVariant
  labelKey : String
deriving DecidableEq, Repr

/-- The `statusMap` literal of `getStatusBadge` (ModerationTab.tsx lines
167-174): a partial map from status strings to badge configurations. -/
def statusMap (status : String) : Option BadgeConfig :=
  if status = "active" then some ⟨BadgeVariant.active, "status.active"⟩
  else if status = "inactive" then some ⟨BadgeVariant.secondary, "status.inactive"⟩
  else if status = "pending_moderation" then some ⟨BadgeVariant.warning, "status.pending"⟩
  else if status = "rejected" then some ⟨BadgeVariant.destructive, "status.rejected"⟩
  else if status = "expired" then some ⟨BadgeVariant.secondary, "status.expired"⟩
  else if status = "deleted" then some ⟨BadgeVariant.destructive, "status.deleted"⟩
  else none

/-- Function `getStatusBadge` (ModerationTab.tsx line 175):
`statusMap[status] || { variant: "secondary", labelKey: status }`. -/
def getStatusBadge (status : String) : BadgeConfig :=
  (statusMap status).getD ⟨BadgeVariant.secondary, status⟩

/-- The six status strings enumerated in `statusMap`. -/
def knownStatuses : List String :=
  ["active", "inactive", "pending_moderation", "rejected", "expired", "deleted"]

/-! ## RecommendedTab: random-mode derivation and toggle handler -/

/-- The fields of a `RecommendedListing` entry used by the random-mode
derivation in `RecommendedTab.tsx` (other fields — the joined listing
snapshot — do not influence it). -/
structure RecommendedEntry where
  id : String
  is_random : Bool
deriving DecidableEq, Repr

/-- The random-mode toggle state computed by `loadData` in
`RecommendedTab.tsx` line 74 after a successful fetch:
`recRes.data.recommended.some(r => r.is_random)`. -/
def loadDataIsRandom (recommended : List RecommendedEntry) : Bool :=
  recommended.any (fun r => r.is_random)

/-- Abstract UI events of the `RecommendedTab` random-mode toggle path. The
alphabet includes `confirmPrompt` so that "a confirmation precedes the call"
can be stated; the component itself renders no confirmation dialog. -/
inductive UIEvent where
  | confirmPrompt
  | setRandomModeCall (enabled : Bool)
  | setIsRandomState (b : Bool)
  | toastShown
  | loadDataCall
deriving DecidableEq, Repr

/-- Event trace of `handleRandomToggle` (RecommendedTab.tsx lines 105-112):
it calls `setRandomRecommended(enabled)` first, then — when the API call
returned a truthy result — sets the local state, shows a toast and reloads. -/
def handleRandomToggle (enabled apiOk : Bool) : List UIEvent :=
  UIEvent.setRandomModeCall enabled ::
    (if apiOk then
      [UIEvent.setIsRandomState enabled, UIEvent.toastShown, UIEvent.loadDataCall]
    else [])

/-- The random-mode `Switch` wires `onCheckedChange={handleRandomToggle}`
(RecommendedTab.tsx lines 131-135): the operator gesture invokes the handler
directly, with no intervening dialog. -/
def randomSwitchToggle (enabled apiOk : Bool) : List UIEvent :=
  handleRandomToggle enabled apiOk

/-! ## StatisticsTab: combined totals and active-user percentage -/

/-- The listing-stats block of the stats response (the fields the combined
totals read; `vip_listings` and the like are display-only). -/
structure ListingStats where
  total_listings : Nat
  active_listings : Nat
  pending_moderation : Nat
deriving DecidableEq, Repr

/-- The requirement-stats block of the stats response. -/
structure RequirementStats where
  total_requirements : Nat
  active_requirements : Nat
deriving DecidableEq, Repr

/-- The user-stats block of the stats response (fields read by the
active-percentage derivation). -/
structure UserStats where
  total_users : Nat
  active_users : Nat
deriving DecidableEq, Repr

/-- The stats response shape consumed by `StatisticsTab`: realty blocks are
always present; the auto-domain blocks are optional
(`stats.auto_listings?` / `stats.auto_requirements?`). -/
structure AdminStats where
  users : UserStats
  listings : ListingStats
  requirements : RequirementStats
  auto_listings : Option ListingStats
  auto_requirements : Option RequirementStats
deriving DecidableEq, Repr

/-- JavaScript `expr?.field || 0` on an optional block: a missing block
(undefined) and a stored 0 both yield 0. -/
def jsOptOrZero (x : Option Nat) : Nat :=
  match x with
  | some n => n
  | none => 0

/-- Derived `totalListings` (StatisticsTab.tsx line 50):
`stats.listings.total_listings + (stats.auto_listings?.total_listings || 0)`. -/
def totalListings (s : AdminStats) : Nat :=
  s.listings.total_listings + jsOptOrZero (s.auto_listings.map (fun a => a.total_listings))

/-- Derived `activeListings` (StatisticsTab.tsx line 51). -/
def activeListings (s : AdminStats) : Nat :=
  s.listings.active_listings + jsOptOrZero (s.auto_listings.map (fun a => a.active_listings))

/-- Derived `pendingModeration` (StatisticsTab.tsx line 52). -/
def pendingModeration (s : AdminStats) : Nat :=
  s.listings.pending_moderation + jsOptOrZero (s.auto_listings.map (fun a => a.pending_moderation))

/-- Derived `totalRequirements` (StatisticsTab.tsx line 53). -/
def totalRequirements (s : AdminStats) : Nat :=
  s.requirements.total_requirements
    + jsOptOrZero (s.auto_requirements.map (fun a => a.total_requirements))

/-- JavaScript `Math.round` on a non-negative rational: nearest integer, halves rounded
up (`Math.round(x) = ⌊x + 1/2⌋`, which is also JavaScript's behaviour for
the negative case since it rounds halves toward positive infinity). -/
def jsRound (x : ℚ) : ℤ :=
  Int.floor (x + 1 / 2)

/-- The active-user percentage rendered by `StatisticsTab` (line 169):
`total_users > 0 ? Math.round((active_users / total_users) * 100) : 0`. -/
def activePercentDisplay (u : UserStats) : ℤ :=
  if 0 < u.total_users then jsRound ((u.active_users : ℚ) / (u.total_users : ℚ) * 100) else 0

/-! ## ModerationTab: loaded data and aggregates -/

/-- A loaded moderation row, projected to the field the aggregates read
(realty/auto listings and requirements all carry a `status` string). -/
structure ModEntity where
  id : String
  status : String
deriving DecidableEq, Repr

/-- The four entity lists held in `ModerationTab` component state after a
load (`listings`, `requirements`, `autoListings`, `autoRequirements`). -/
structure ModerationData where
  listings : List ModEntity
  requirements : List ModEntity
  autoListings : List ModEntity
  autoRequirements : List ModEntity
deriving Repr

/-- Derived `totalPendingRealty` (ModerationTab.tsx line 185):
`listings.filter(l => l.status === "pending_moderation").length`. -/
def totalPendingRealty (d : ModerationData) : Nat :=
  (d.listings.filter (fun l => l.status = "pending_moderation")).length

/-- Derived `totalPendingAuto` (ModerationTab.tsx line 186). -/
def totalPendingAuto (d : ModerationData) : Nat :=
  (d.autoListings.filter (fun l => l.status = "pending_moderation")).length

/-- Derived `totalAll` (ModerationTab.tsx line 187): the sum of the four loaded
list lengths. -/
def totalAll (d : ModerationData) : Nat :=
  d.listings.length + d.requirements.length + d.autoListings.length + d.autoRequirements.length

/-- The pending figure rendered in the header (ModerationTab.tsx line 335):
`totalPendingRealty + totalPendingAuto`. -/
def displayedPending (d : ModerationData) : Nat :=
  totalPendingRealty d + totalPendingAuto d

/-- The four moderated entity kinds (two parallel domains, two roles). -/
inductive EntityKind where
  | realtyListing
  | realtyRequirement
  | autoListing
  | autoRequirement
deriving DecidableEq, Repr

/-- Target statuses offered by the row dropdown menus of `ModerationTab`,
read off the four `DropdownMenuContent` blocks: realty listings lines
430-432, realty requirements lines 480-482, auto listings lines 532-534,
auto requirements lines 584-586. -/
def statusChangeTargets : EntityKind → List String
  | EntityKind.realtyListing => ["active", "rejected", "deleted"]
  | EntityKind.realtyRequirement => ["active", "inactive", "deleted"]
  | EntityKind.autoListing => ["active", "rejected", "deleted"]
  | EntityKind.autoRequirement => ["active", "inactive", "deleted"]

/-! ## LimitsTab: settings load/save with the 0-as-unlimited sentinel -/

/-- The limit-type selector value chosen by `loadSettings`
(LimitsTab.tsx lines 41-48 and 51-58) from a stored monthly limit:
0 selects "unlimited", the preset values 2/4/6 select themselves, and any
other value selects "custom" (with the value put in the custom input). -/
def loadedLimitSelector (stored : Nat) : String :=
  if stored = 0 then "unlimited"
  else if stored ∈ ([2, 4, 6] : List Nat) then toString stored
  else "custom"

/-- The payload `handleSave` passes to `updateSettings`
(LimitsTab.tsx lines 88-91). -/
structure SettingsPayload where
  free_listings_per_month : JSNum
  free_requirements_per_month : JSNum
deriving DecidableEq, Repr

/-- One limit as parsed by `handleSave` (LimitsTab.tsx lines 71-77 and
80-86): "unlimited" sends 0, "custom" sends `parseInt(value) || dflt`
(the default is 1 for listings, 5 for requirements), and a preset selector
sends `parseInt(selector)`. -/
def limitsTabParse (ty value : String) (dflt : Int) : JSNum :=
  if ty = "unlimited" then JSNum.num 0
  else if ty = "custom" then jsOr (parseIntJS value) dflt
  else parseIntJS ty

/-- Handler `handleSave` (LimitsTab.tsx lines 64-100): parse both limits and call
`updateSettings` unconditionally — there is no validation or error path
before the request is sent. -/
def limitsTabSave (listingsType listingsValue reqType reqValue : String) : SettingsPayload :=
  { free_listings_per_month := limitsTabParse listingsType listingsValue 1
    free_requirements_per_month := limitsTabParse reqType reqValue 5 }

/-! ## UsersTab: per-user limits save and block-user confirmation -/

/-- One limit value as parsed by `handleLimitsSave` in the per-user limits
dialog (UsersTab, lines 144-160 of the source): starting from null,
"unlimited" sends 0, "custom" sends `parseInt(custom) || null`, "default"
leaves null, and a preset selector sends `parseInt(selector)`. -/
def usersLimitsSaveValue (ty custom : String) : Option JSNum :=
  if ty = "unlimited" then some (JSNum.num 0)
  else if ty = "custom" then jsOrNull (parseIntJS custom)
  else if ty ≠ "default" then some (parseIntJS ty)
  else none

/-- The `blockUser` request produced by `handleBlockConfirm`. -/
structure BlockCall where
  userId : String
  reason : String
deriving DecidableEq, Repr

/-- Handler `handleBlockConfirm(reason)` (UsersTab, lines 93-103 of the source):
returns without calling `blockUser` when no user is selected; otherwise
calls `blockUser(userToBlock.id, reason || "Blocked by admin")` — the empty
string is falsy, so it is replaced by the default reason. -/
def handleBlockConfirm (userToBlock : Option String) (reason : String) : Option BlockCall :=
  match userToBlock with
  | none => none
  | some uid => some ⟨uid, if reason = "" then "Blocked by admin" else reason⟩

/-! ## Theorems -/

/-- C1: the random-mode toggle state is derived from entry flags, not stored
separately — after `loadData` succeeds, the toggle is on iff at least one
loaded `RecommendedEntry` has `is_random = true`, and it is off for an empty
recommended set. -/
theorem loadData_isRandom_derived_from_flags :
    (∀ recs : List RecommendedEntry,
      (loadDataIsRandom recs = true ↔ ∃ r ∈ recs, r.is_random = true)) ∧
    loadDataIsRandom [] = false := by
  constructor
  · intro recs
    simp [loadDataIsRandom, List.any_eq_true]
  · rfl

/-- C2: the aggregate active-user percentage is
`active_users / total_users * 100` rounded to the nearest integer (within
one half of the exact ratio), and is 0 whenever `total_users = 0` — never
an error or NaN. -/
theorem activePercent_rounded_and_zero_on_empty :
    (∀ u : UserStats, u.total_users = 0 → activePercentDisplay u = 0) ∧
    (∀ u : UserStats, 0 < u.total_users →
      |(activePercentDisplay u : ℚ)
          - (u.active_users : ℚ) / (u.total_users : ℚ) * 100| ≤ 1 / 2) := by
  constructor
  · intro u h
    simp [activePercentDisplay, h]
  · intro u h
    have hx : activePercentDisplay u
        = jsRound ((u.active_users : ℚ) / (u.total_users : ℚ) * 100) := by
      simp [activePercentDisplay, h]
    rw [hx, jsRound]
    set x : ℚ := (u.active_users : ℚ) / (u.total_users : ℚ) * 100 with hxdef
    have h1 : (Int.floor (x + 1 / 2) : ℚ) ≤ x + 1 / 2 := Int.floor_le _
    have h2 : x + 1 / 2 - 1 < (Int.floor (x + 1 / 2) : ℚ) := Int.sub_one_lt_floor _
    rw [abs_le]
    constructor <;> linarith

/-- Witness for C2 at concrete stats: 0 total users displays 0, and with
2 active of 3 total users the display is within a half of 200/3. -/
theorem activePercent_rounded_witness :
    activePercentDisplay ⟨0, 4⟩ = 0 ∧
    (0 < (⟨3, 2⟩ : UserStats).total_users ∧
      |(activePercentDisplay ⟨3, 2⟩ : ℚ) - ((2 : ℚ) / (3 : ℚ) * 100)| ≤ 1 / 2) :=
  ⟨activePercent_rounded_and_zero_on_empty.1 ⟨0, 4⟩ rfl,
    by decide,
    by simpa using activePercent_rounded_and_zero_on_empty.2 ⟨3, 2⟩ (by decide)⟩

/-- C3 (code evaluation): toggling random mode on goes straight to the
`setRandomRecommended(true)` call — the very first event of the trace is the
set-random-mode invocation and no confirmation prompt occurs anywhere in the
trace, whether the API call succeeds or fails. -/
theorem randomToggle_enable_has_no_confirmation :
    (randomSwitchToggle true true).head? = some (UIEvent.setRandomModeCall true) ∧
    UIEvent.confirmPrompt ∉ randomSwitchToggle true true ∧
    UIEvent.confirmPrompt ∉ randomSwitchToggle true false := by
  decide

/-- C4: the combined dashboard totals equal the per-domain sums (realty plus
auto for total/active/pending listings and total requirements), and a missing
auto block contributes 0 to each sum. -/
theorem combinedTotals_are_domain_sums (s : AdminStats) :
    totalListings s
        = s.listings.total_listings + s.auto_listings.elim 0 (fun a => a.total_listings) ∧
    activeListings s
        = s.listings.active_listings + s.auto_listings.elim 0 (fun a => a.active_listings) ∧
    pendingModeration s
        = s.listings.pending_moderation + s.auto_listings.elim 0 (fun a => a.pending_moderation) ∧
    totalRequirements s
        = s.requirements.total_requirements
            + s.auto_requirements.elim 0 (fun a => a.total_requirements) ∧
    (s.auto_listings = none →
      totalListings s = s.listings.total_listings ∧
      activeListings s = s.listings.active_listings ∧
      pendingModeration s = s.listings.pending_moderation) ∧
    (s.auto_requirements = none →
      totalRequirements s = s.requirements.total_requirements) := by
  cases hl : s.auto_listings <;> cases hr : s.auto_requirements <;>
    simp [totalListings, activeListings, pendingModeration, totalRequirements,
      jsOptOrZero, hl, hr]

/-- A stats response with no auto-domain blocks, used to witness C4. -/
def statsNoAuto : AdminStats :=
  { users := ⟨10, 4⟩
    listings := ⟨10, 5, 2⟩
    requirements := ⟨7, 3⟩
    auto_listings := none
    auto_requirements := none }

/-- Witness for C4: with both auto blocks absent the combined totals reduce
to the realty figures alone. -/
theorem combinedTotals_witness :
    totalListings statsNoAuto = statsNoAuto.listings.total_listings ∧
    totalRequirements statsNoAuto = statsNoAuto.requirements.total_requirements :=
  ⟨((combinedTotals_are_domain_sums statsNoAuto).2.2.2.2.1 rfl).1,
    (combinedTotals_are_domain_sums statsNoAuto).2.2.2.2.2 rfl⟩

/-- C5: the displayed pending count is the filtered count of loaded realty
listings in `pending_moderation` plus the same count over loaded auto
listings, and the displayed total is the sum of the four loaded list
lengths — both are pure functions of the currently loaded data. -/
theorem moderation_aggregates_are_filtered_counts (d : ModerationData) :
    displayedPending d
        = d.listings.countP (fun l => l.status = "pending_moderation")
            + d.autoListings.countP (fun l => l.status = "pending_moderation") ∧
    totalAll d
        = d.listings.length + d.requirements.length
            + d.autoListings.length + d.autoRequirements.length := by
  refine ⟨?_, rfl⟩
  simp [displayedPending, totalPendingRealty, totalPendingAuto,
    List.countP_eq_length_filter]

/-- C6: the status-change targets offered by the moderation dropdowns are
exactly {active, rejected, deleted} for listings (realty and auto) and
exactly {active, inactive, deleted} for requirements — in particular
'inactive' is offered precisely for the two requirement kinds. -/
theorem statusTargets_inactive_only_for_requirements :
    (∀ s, s ∈ statusChangeTargets EntityKind.realtyListing
        ↔ s = "active" ∨ s = "rejected" ∨ s = "deleted") ∧
    (∀ s, s ∈ statusChangeTargets EntityKind.autoListing
        ↔ s = "active" ∨ s = "rejected" ∨ s = "deleted") ∧
    (∀ s, s ∈ statusChangeTargets EntityKind.realtyRequirement
        ↔ s = "active" ∨ s = "inactive" ∨ s = "deleted") ∧
    (∀ s, s ∈ statusChangeTargets EntityKind.autoRequirement
        ↔ s = "active" ∨ s = "inactive" ∨ s = "deleted") ∧
    (∀ k, "inactive" ∈ statusChangeTargets k
        ↔ k = EntityKind.realtyRequirement ∨ k = EntityKind.autoRequirement) := by
  refine ⟨?_, ?_, ?_, ?_, ?_⟩
  · intro s; simp [statusChangeTargets]
  · intro s; simp [statusChangeTargets]
  · intro s; simp [statusChangeTargets]
  · intro s; simp [statusChangeTargets]
  · intro k; cases k <;> simp [statusChangeTargets]

/-- C7: the 0-as-unlimited sentinel round-trips through the settings UI —
saving with selector "unlimited" sends 0 for the corresponding field, a
stored 0 loads back as selector "unlimited", and no non-zero stored value
loads as "unlimited". -/
theorem unlimited_sentinel_roundtrip :
    (∀ lv rt rv, (limitsTabSave "unlimited" lv rt rv).free_listings_per_month
        = JSNum.num 0) ∧
    (∀ a b rv, (limitsTabSave a b "unlimited" rv).free_requirements_per_month
        = JSNum.num 0) ∧
    loadedLimitSelector 0 = "unlimited" ∧
    (∀ n : Nat, n ≠ 0 → loadedLimitSelector n ≠ "unlimited") := by
  refine ⟨?_, ?_, rfl, ?_⟩
  · intro lv rt rv
    simp [limitsTabSave, limitsTabParse]
  · intro a b rv
    simp [limitsTabSave, limitsTabParse]
  · intro n hn
    simp only [loadedLimitSelector, if_neg hn]
    by_cases hm : n ∈ ([2, 4, 6] : List Nat)
    · rw [if_pos hm]
      have h236 : n = 2 ∨ n = 4 ∨ n = 6 := by simpa using hm
      rcases h236 with h | h | h <;> subst h <;> decide
    · rw [if_neg hm]
      decide

/-- Witness for C7: stored value 5 is non-zero and does not load as the
"unlimited" selector. -/
theorem unlimited_sentinel_roundtrip_witness :
    (5 : Nat) ≠ 0 ∧ loadedLimitSelector 5 ≠ "unlimited" :=
  ⟨by decide, unlimited_sentinel_roundtrip.2.2.2 5 (by decide)⟩

/-- C8 (counterexample): the non-numeric custom limit value "abc" does not
fail — `parseInt` yields NaN, the global settings save silently substitutes
the defaults 1 and 5 and sends them, the per-user dialog silently
substitutes null, and the negative custom value "-3" is sent unchanged. -/
theorem limits_malformed_counterexample :
    parseIntJS "abc" = JSNum.nan ∧
    limitsTabSave "custom" "abc" "custom" "abc"
        = ⟨JSNum.num 1, JSNum.num 5⟩ ∧
    usersLimitsSaveValue "custom" "abc" = none ∧
    usersLimitsSaveValue "custom" "-3" = some (JSNum.num (-3)) := by
  decide

/-- C8 (amended): updating limits with a malformed custom value raises no
client-side validation error — any custom value parsing to NaN or 0 is
silently replaced by the substitutes 1 (listings) and 5 (requirements) in
the global settings save and by null in the per-user dialog, and any custom
value parsing to a non-zero integer (negative included) is sent as-is. -/
theorem limits_malformed_silently_substituted (s t : String)
    (hs : parseIntJS s = JSNum.nan ∨ parseIntJS s = JSNum.num 0)
    (n : Int) (hn : parseIntJS t = JSNum.num n) (hnz : n ≠ 0) :
    limitsTabSave "custom" s "custom" s = ⟨JSNum.num 1, JSNum.num 5⟩ ∧
    usersLimitsSaveValue "custom" s = none ∧
    usersLimitsSaveValue "custom" t = some (JSNum.num n) := by
  refine ⟨?_, ?_, ?_⟩
  · rcases hs with h | h <;>
      simp [limitsTabSave, limitsTabParse, jsOr, h]
  · rcases hs with h | h <;>
      simp [usersLimitsSaveValue, jsOrNull, h]
  · simp [usersLimitsSaveValue, jsOrNull, hn, hnz]

/-- Witness for the amended C8 at the concrete inputs "abc" and "-3". -/
theorem limits_malformed_silently_substituted_witness :
    (parseIntJS "abc" = JSNum.nan ∨ parseIntJS "abc" = JSNum.num 0) ∧
    parseIntJS "-3" = JSNum.num (-3) ∧ (-3 : Int) ≠ 0 ∧
    (limitsTabSave "custom" "abc" "custom" "abc" = ⟨JSNum.num 1, JSNum.num 5⟩ ∧
      usersLimitsSaveValue "custom" "abc" = none ∧
      usersLimitsSaveValue "custom" "-3" = some (JSNum.num (-3))) :=
  ⟨by decide, by decide, by decide,
    limits_malformed_silently_substituted "abc" "-3" (by decide) (-3) (by decide)
      (by decide)⟩

/-- C9: status rendering is total over arbitrary status strings — for any
status outside the enumerated set, `getStatusBadge` returns the fallback
badge with the 'secondary' variant and the raw status string as its label
key. -/
theorem getStatusBadge_total_with_fallback (status : String)
    (h : status ∉ knownStatuses) :
    getStatusBadge status = ⟨BadgeVariant.secondary, status⟩ := by
  simp only [knownStatuses, List.mem_cons, List.mem_singleton, not_or] at h
  obtain ⟨h1, h2, h3, h4, h5, h6, -⟩ := h
  simp [getStatusBadge, statusMap, h1, h2, h3, h4, h5, h6]

/-- Witness for C9: the unenumerated status "archived" gets the secondary
fallback badge labelled with the raw string. -/
theorem getStatusBadge_total_with_fallback_witness :
    "archived" ∉ knownStatuses ∧
    getStatusBadge "archived" = ⟨BadgeVariant.secondary, "archived"⟩ :=
  ⟨by decide, getStatusBadge_total_with_fallback "archived" (by decide)⟩

/-- C10: a block-user request never carries an empty reason — confirming
with the empty string (the skip path) sends the default "Blocked by admin",
a non-empty reason is sent verbatim, and every request produced has a
non-empty reason. -/
theorem blockUser_reason_never_empty :
    (∀ uid, handleBlockConfirm (some uid) "" = some ⟨uid, "Blocked by admin"⟩) ∧
    (∀ uid reason, reason ≠ "" →
      handleBlockConfirm (some uid) reason = some ⟨uid, reason⟩) ∧
    (∀ u reason c, handleBlockConfirm u reason = some c → c.reason ≠ "") := by
  refine ⟨?_, ?_, ?_⟩
  · intro uid; rfl
  · intro uid reason h
    simp [handleBlockConfirm, h]
  · intro u reason c hc
    cases u with
    | none => simp [handleBlockConfirm] at hc
    | some uid =>
        simp only [handleBlockConfirm, Option.some.injEq] at hc
        subst hc
        by_cases h : reason = "" <;> simp [h]

/-- Witness for C10 at a concrete user and reason: a non-empty reason is
sent verbatim and the produced request's reason is non-empty. -/
theorem blockUser_reason_never_empty_witness :
    ("spam" ≠ "" ∧ handleBlockConfirm (some "u1") "spam" = some ⟨"u1", "spam"⟩) ∧
    (handleBlockConfirm (some "u1") "" = some ⟨"u1", "Blocked by admin"⟩ ∧
      (⟨"u1", "Blocked by admin"⟩ : BlockCall).reason ≠ "") :=
  ⟨⟨by decide, blockUser_reason_never_empty.2.1 "u1" "spam" (by decide)⟩,
    blockUser_reason_never_empty.1 "u1",
    blockUser_reason_never_empty.2.2 (some "u1") "" ⟨"u1", "Blocked by admin"⟩
      (blockUser_reason_never_empty.1 "u1")⟩

end AutoMatch
